import Mathlib

/-!
Verification of the koobing repository's config-block synchronization logic
(`src/setup/register_service.py` and `src/setup/deregister_service.py`)
against its natural-language specification.

The Python scripts are shallowly embedded here:
* strings stay `String`; Python `str.splitlines()` is `pySplitlines`
  (the config texts involved only use `'\n'` line terminators),
  `"\n".join(xs)` is `pyJoin "\n" xs`, and the Python substring test
  `needle in hay` (also `grep -q 'needle' file`, whose generated patterns
  contain no regex metacharacters) is `strContains`;
* `generate_haproxy_block` mirrors the block generator of
  `register_service.py` lines 29-45;
* the remote effect of the `grep -q ... || (tee -a ... && restart)` command
  of `deploy_to_gateways` on one host's config file is `registerStep`
  (the temp file pushed and appended is `"\n" + config_block`, so an append
  produces `cfg ++ "\n" ++ block`); the per-host loop with its
  `subprocess.run(..., check=True)` fail-fast semantics is `deployLoop`,
  with remote command success abstracted into `scpOk`/`sshOk` predicates;
* `update_haproxy_config` mirrors the locate/splice logic of
  `deregister_service.py` lines 14-47 on a fetched config text, returning
  (pushed?, resulting remote content); the `main` loop that wraps each host
  in `try/except` is `dereg_main` with the per-host outcome abstracted.
-/

set_option maxHeartbeats 1000000
set_option maxRecDepth 4000

/-- One entry of the `ports` list collected by `ask_service_info`
(`{"port": .., "load_balance": .., "health_check": ..}`). -/
structure PortSpec where
  port : Nat
  load_balance : Bool
  health_check : Bool
deriving DecidableEq

/-- Python `"sep".join(xs)`: empty string on `[]`, otherwise a left fold
appending `sep ++ next` to the accumulator. -/
def pyJoin (sep : String) : List String → String
  | [] => ""
  | x :: rest => rest.foldl (fun acc y => acc ++ sep ++ y) x

/-- Worker for `pySplitlines`: every `'\n'` terminates a line; a nonempty
leftover after the last `'\n'` is a final line, an empty leftover is not. -/
def splitLinesAux : List Char → List Char → List (List Char)
  | [], acc => if acc.isEmpty then [] else [acc.reverse]
  | c :: rest, acc =>
    if c = '\n' then acc.reverse :: splitLinesAux rest []
    else splitLinesAux rest (c :: acc)

def splitLinesChar (l : List Char) : List (List Char) :=
  splitLinesAux l []

/-- Python `str.splitlines()` restricted to `'\n'` terminators (the only
terminator occurring in this repository's config texts). -/
def pySplitlines (s : String) : List String :=
  (splitLinesChar s.data).map String.mk

/-- Does `needle` occur as a contiguous sublist of `hay`? -/
def subOccurs (needle : List Char) : List Char → Bool
  | [] => needle.isEmpty
  | c :: rest => needle.isPrefixOf (c :: rest) || subOccurs needle rest

/-- Python `needle in hay` on strings (substring containment). -/
def strContains (needle hay : String) : Bool :=
  subOccurs needle.data hay.data

/-- Python `line.strip() == ""`. -/
def isBlank (l : String) : Bool :=
  l.data.all fun c => c.isWhitespace

/-- The six unconditional lines emitted per port by `generate_haproxy_block`
(`register_service.py` lines 34-39), with `pn` the rendered port number. -/
def baseLines (service domain pn : String) : List String :=
  ["frontend " ++ (service ++ "_" ++ pn ++ "_front"),
   "    bind *:" ++ pn,
   "    default_backend " ++ (service ++ "_" ++ pn ++ "_back"),
   "",
   "backend " ++ (service ++ "_" ++ pn ++ "_back"),
   "    server-template " ++ (service ++ " 10 _" ++ service ++ "._tcp." ++ domain ++
     " resolvers consul_dns check inter 2s")]

/-- The lines appended for one port `p` in the loop body of
`generate_haproxy_block` (`register_service.py` lines 31-44). -/
def perPortLines (service domain : String) (p : PortSpec) : List String :=
  baseLines service domain (toString p.port)
    ++ (if p.load_balance then [] else ["    balance source"])
    ++ (if p.health_check then ["    option tcp-check"] else [])
    ++ [""]

/-- The full `lines` list accumulated across the `for p in ports` loop. -/
def blockLines (service domain : String) : List PortSpec → List String
  | [] => []
  | p :: rest => perPortLines service domain p ++ blockLines service domain rest

/-- `generate_haproxy_block` (`register_service.py` lines 29-45):
`"\n".join(lines)`. -/
def generate_haproxy_block (service domain : String) (ports : List PortSpec) : String :=
  pyJoin "\n" (blockLines service domain ports)

/-- `config_block.splitlines()[0]` (`register_service.py` line 57); `none`
models the `IndexError` raised on an empty block. -/
def markerOf (block : String) : Option String :=
  (pySplitlines block).head?

/-- `grep -q '<marker>' /etc/haproxy/haproxy.cfg` on a fetched config text:
true when the marker occurs as a substring of some line. -/
def alreadyPresent (marker cfg : String) : Bool :=
  (pySplitlines cfg).any fun l => strContains marker l

/-- Remote effect of `check_cmd` (`register_service.py` lines 57-58) on one
host's config content: no change when the marker matches, otherwise
`tee -a` appends the pushed temp file, which holds `"\n" + config_block`
(line 49). `none` models the `IndexError` on an empty block. -/
def registerStep (cfg block : String) : Option String :=
  (markerOf block).map fun m =>
    if alreadyPresent m cfg then cfg else cfg ++ "\n" ++ block

/-- Outcome of one iteration of the `for ip in GATEWAY_IPS` loop of
`deploy_to_gateways` (`register_service.py` lines 51-58). `markerCrash` is
the `IndexError` raised by `config_block.splitlines()[0]` on an empty
block; both `subprocess.run(..., check=True)` failures raise. -/
inductive RegResult where
  | success : RegResult
  | scpFailed : RegResult
  | sshFailed : RegResult
  | markerCrash : RegResult
deriving DecidableEq

/-- The host loop of `deploy_to_gateways` with the success of the two
remote commands abstracted into `scpOk`/`sshOk`. An exception from
`subprocess.run(..., check=True)` propagates (nothing catches it in
`main`), so a failing host is the last one processed; the `scp` of the
temp file happens before the marker line is extracted for `check_cmd`. -/
def deployLoop (marker : Option String) (scpOk sshOk : String → Bool) :
    List String → List (String × RegResult)
  | [] => []
  | h :: t =>
    if scpOk h then
      match marker with
      | none => [(h, RegResult.markerCrash)]
      | some _ =>
        if sshOk h then (h, RegResult.success) :: deployLoop marker scpOk sshOk t
        else [(h, RegResult.sshFailed)]
    else [(h, RegResult.scpFailed)]

/-- `deploy_to_gateways` (`register_service.py` lines 47-58): per-host
outcomes of deploying `config_block` to `hosts`. -/
def deploy_to_gateways (config_block : String) (scpOk sshOk : String → Bool)
    (hosts : List String) : List (String × RegResult) :=
  deployLoop (markerOf config_block) scpOk sshOk hosts

/-- The block-start test of `update_haproxy_config`
(`deregister_service.py` line 25): Python substring containment of either
service-level pattern. -/
def isMarkerLine (service line : String) : Bool :=
  strContains ("frontend " ++ (service ++ "_front")) line
    || strContains ("backend " ++ (service ++ "_back")) line

/-- The scan loop of `update_haproxy_config` (`deregister_service.py`
lines 21-31). Returns `(start_idx, end_idx)` as options (`none` models the
`-1` sentinel); `in_block` is equivalent to `start_idx != -1` throughout,
because both are first set by the same first matching line. -/
def scanBlock (service : String) : List String → Nat → Option Nat → Option Nat × Option Nat
  | [], _, st => (st, none)
  | l :: rest, idx, st =>
    if isMarkerLine service l then
      scanBlock service rest (idx + 1) (if st.isSome then st else some idx)
    else if st.isSome && isBlank l then
      (st, some idx)
    else
      scanBlock service rest (idx + 1) st

/-- `update_haproxy_config` (`deregister_service.py` lines 14-47) applied
to an already fetched config text. Returns (pushed?, resulting remote
content): `(false, content)` when no block start is found (lines 33-35,
nothing written or pushed); otherwise the splice
`lines[:start_idx] + lines[end_idx + 1:]` is joined, a final newline
appended (line 41), and the file pushed and copied over the live config.
With the `-1` sentinel for a missing `end_idx`, `lines[end_idx + 1:]` is
`lines[0:]`, i.e. the whole list. -/
def update_haproxy_config (service content : String) : Bool × String :=
  let lines := pySplitlines content
  match scanBlock service lines 0 none with
  | (none, _) => (false, content)
  | (some s, e) =>
    let newCfg := lines.take s ++ (match e with
      | some v => lines.drop (v + 1)
      | none => lines)
    (true, pyJoin "\n" newCfg ++ "\n")

/-- Per-host outcome of `update_haproxy_config` as observed by `main`
(`deregister_service.py` lines 56-60): `errorCaught` is any exception,
captured by the `try/except` around the call. -/
inductive DeregResult where
  | removed : DeregResult
  | notFound : DeregResult
  | errorCaught : DeregResult
deriving DecidableEq

/-- The `for gw in GATEWAY_IPS` loop of `main` (`deregister_service.py`
lines 56-60): every host is processed and yields an outcome, because the
loop body is wrapped in `try/except Exception`. -/
def dereg_main (outcome : String → DeregResult) (hosts : List String) :
    List (String × DeregResult) :=
  hosts.map fun h => (h, outcome h)

/-! ### Helper lemmas about the string model -/

lemma strData_append (a b : String) : (a ++ b).data = a.data ++ b.data := by
  cases a; cases b; rfl

/-- Two strings differing at a position inside the left part of an append
are distinct. -/
lemma append_ne (pre suf t : String) (i : Nat) (h1 : i < pre.data.length)
    (h2 : pre.data[i]? ≠ t.data[i]?) : pre ++ suf ≠ t := by
  intro he
  apply h2
  rw [← he, strData_append, List.getElem?_append_left h1]

lemma head?_some_mem {α : Type} {l : List α} {a : α} (h : l.head? = some a) : a ∈ l := by
  cases l with
  | nil => simp at h
  | cons x xs =>
    simp only [List.head?_cons, Option.some.injEq] at h
    exact h ▸ List.mem_cons_self x xs

lemma isPrefixOf_self (l : List Char) : l.isPrefixOf l = true := by
  induction l with
  | nil => rfl
  | cons c r ih => simp [List.isPrefixOf, ih]

lemma strContains_self (m : String) : strContains m m = true := by
  unfold strContains
  cases hd : m.data with
  | nil => rfl
  | cons c r => simp [subOccurs, isPrefixOf_self]

lemma splitLinesAux_ne_nil (l : List Char) : ∀ acc : List Char, l ≠ [] →
    splitLinesAux l acc ≠ [] := by
  induction l with
  | nil => intro acc h; exact absurd rfl h
  | cons c rest ih =>
    intro acc _
    by_cases hc : c = '\n'
    · simp [splitLinesAux, hc]
    · simp only [splitLinesAux, hc, if_false]
      cases rest with
      | nil => simp [splitLinesAux]
      | cons d ds => exact ih (c :: acc) (by simp)

/-- Splitting at an explicit `'\n'` separator splits the two sides
independently. -/
lemma splitLinesAux_append (y : List Char) : ∀ (x acc : List Char),
    splitLinesAux (x ++ '\n' :: y) acc =
      splitLinesAux (x ++ ['\n']) acc ++ splitLinesAux y [] := by
  intro x
  induction x with
  | nil => intro acc; simp [splitLinesAux]
  | cons c x' ih =>
    intro acc
    by_cases hc : c = '\n' <;> simp [splitLinesAux, hc, ih]

lemma pySplitlines_append (a b : String) :
    pySplitlines (a ++ "\n" ++ b) = pySplitlines (a ++ "\n") ++ pySplitlines b := by
  unfold pySplitlines splitLinesChar
  have hd : (a ++ "\n" ++ b).data = a.data ++ '\n' :: b.data := by
    rw [strData_append, strData_append]
    simp
  have hd2 : (a ++ "\n").data = a.data ++ ['\n'] := by
    rw [strData_append]
  rw [hd, hd2, splitLinesAux_append, List.map_append]

/-- `pyJoin sep (x :: rest)` has `x` as a prefix (at the character level). -/
lemma pyJoin_data_cons (sep : String) (rest : List String) : ∀ x : String,
    ∃ t : List Char, (pyJoin sep (x :: rest)).data = x.data ++ t := by
  induction rest with
  | nil => intro x; exact ⟨[], by simp [pyJoin]⟩
  | cons y ys ih =>
    intro x
    obtain ⟨t, ht⟩ := ih (x ++ sep ++ y)
    refine ⟨sep.data ++ y.data ++ t, ?_⟩
    have h1 : pyJoin sep (x :: y :: ys) = pyJoin sep ((x ++ sep ++ y) :: ys) := rfl
    rw [h1, ht, strData_append, strData_append]
    simp [List.append_assoc]

/-- A generated block for a nonempty ports list is a nonempty text, so the
marker extraction `config_block.splitlines()[0]` succeeds. -/
lemma markerOf_generate_isSome (service domain : String) (p : PortSpec)
    (rest : List PortSpec) :
    ∃ m, markerOf (generate_haproxy_block service domain (p :: rest)) = some m := by
  have hb : ∃ tl, blockLines service domain (p :: rest) =
      ("frontend " ++ (service ++ "_" ++ toString p.port ++ "_front")) :: tl := by
    exact ⟨_, rfl⟩
  obtain ⟨tl, htl⟩ := hb
  have hdata : (generate_haproxy_block service domain (p :: rest)).data ≠ [] := by
    unfold generate_haproxy_block
    rw [htl]
    obtain ⟨t, ht⟩ := pyJoin_data_cons "\n" tl
      ("frontend " ++ (service ++ "_" ++ toString p.port ++ "_front"))
    rw [ht, strData_append]
    simp
  have hlines : pySplitlines (generate_haproxy_block service domain (p :: rest)) ≠ [] := by
    unfold pySplitlines splitLinesChar
    have := splitLinesAux_ne_nil (generate_haproxy_block service domain (p :: rest)).data [] hdata
    simp [this]
  cases hl : pySplitlines (generate_haproxy_block service domain (p :: rest)) with
  | nil => exact absurd hl hlines
  | cons m ms => exact ⟨m, by simp [markerOf, hl]⟩

/-- C1. The register operation is idempotent: with a nonempty ports list,
running the idempotency-check-then-append step twice on a host's config
text equals running it once, and when the block's marker line already
occurs as a line of the config text the single run leaves the text
unchanged. -/
theorem register_idempotent (cfg service domain : String) (ports : List PortSpec)
    (hp : ports ≠ []) :
    ((registerStep cfg (generate_haproxy_block service domain ports)).bind
        (fun c => registerStep c (generate_haproxy_block service domain ports))
      = registerStep cfg (generate_haproxy_block service domain ports))
    ∧ ∀ m, markerOf (generate_haproxy_block service domain ports) = some m →
        m ∈ pySplitlines cfg →
        registerStep cfg (generate_haproxy_block service domain ports) = some cfg := by
  obtain ⟨p, rest, rfl⟩ : ∃ p rest, ports = p :: rest := by
    cases ports with
    | nil => exact absurd rfl hp
    | cons a l => exact ⟨a, l, rfl⟩
  obtain ⟨m, hm⟩ := markerOf_generate_isSome service domain p rest
  have hmem : m ∈ pySplitlines (generate_haproxy_block service domain (p :: rest)) :=
    head?_some_mem hm
  have hself : strContains m m = true := strContains_self m
  constructor
  · by_cases hap : alreadyPresent m cfg = true
    · simp [registerStep, hm, hap]
    · have h2 : alreadyPresent m
          (cfg ++ "\n" ++ generate_haproxy_block service domain (p :: rest)) = true := by
        unfold alreadyPresent
        rw [pySplitlines_append, List.any_append]
        have : (pySplitlines (generate_haproxy_block service domain (p :: rest))).any
            (fun l => strContains m l) = true := by
          simp only [List.any_eq_true]
          exact ⟨m, hmem, hself⟩
        simp [this]
      simp [registerStep, hm, hap, h2]
  · intro m' hm' hmemcfg
    rw [hm] at hm'
    injection hm' with hme
    subst hme
    have hap : alreadyPresent m cfg = true := by
      unfold alreadyPresent
      simp only [List.any_eq_true]
      exact ⟨m, hmemcfg, hself⟩
    simp [registerStep, hm, hap]

/-- Witness for C1 at a concrete input. -/
theorem register_idempotent_witness :
    (([⟨2379, true, true⟩] : List PortSpec) ≠ [])
    ∧ (((registerStep "global"
          (generate_haproxy_block "etcd" "etcd.service.consul" [⟨2379, true, true⟩])).bind
          (fun c => registerStep c
            (generate_haproxy_block "etcd" "etcd.service.consul" [⟨2379, true, true⟩]))
        = registerStep "global"
            (generate_haproxy_block "etcd" "etcd.service.consul" [⟨2379, true, true⟩]))
      ∧ ∀ m, markerOf (generate_haproxy_block "etcd" "etcd.service.consul"
            [⟨2379, true, true⟩]) = some m →
          m ∈ pySplitlines "global" →
          registerStep "global"
              (generate_haproxy_block "etcd" "etcd.service.consul" [⟨2379, true, true⟩])
            = some "global") :=
  ⟨by decide,
   register_idempotent "global" "etcd" "etcd.service.consul" [⟨2379, true, true⟩] (by decide)⟩

/-- C7. On the Example 1 spec (`etcd`, `etcd.service.consul`, port 2379
with load balancing and health check), the generator renders exactly the
expected text, and its first line equals the marker line
`config_block.splitlines()[0]` used by the idempotency check. -/
theorem generate_example1 :
    generate_haproxy_block "etcd" "etcd.service.consul" [⟨2379, true, true⟩]
      = "frontend etcd_2379_front\n    bind *:2379\n    default_backend etcd_2379_back\n\nbackend etcd_2379_back\n    server-template etcd 10 _etcd._tcp.etcd.service.consul resolvers consul_dns check inter 2s\n    option tcp-check\n"
    ∧ markerOf (generate_haproxy_block "etcd" "etcd.service.consul" [⟨2379, true, true⟩])
      = some "frontend etcd_2379_front" := by
  decide

/-- C9. The already-present test of the register path matches the marker
as a substring of a line, not only as a verbatim whole line: on a config
text whose single line embeds the marker inside a comment, no line equals
the marker, yet the step performs no append and leaves the text unchanged
(the block is treated as already present). -/
theorem register_substring_match :
    markerOf (generate_haproxy_block "etcd" "etcd.service.consul" [⟨2379, true, true⟩])
      = some "frontend etcd_2379_front"
    ∧ (∀ l ∈ pySplitlines "# frontend etcd_2379_front (disabled)",
        l ≠ "frontend etcd_2379_front")
    ∧ strContains "frontend etcd_2379_front" "# frontend etcd_2379_front (disabled)" = true
    ∧ registerStep "# frontend etcd_2379_front (disabled)"
        (generate_haproxy_block "etcd" "etcd.service.consul" [⟨2379, true, true⟩])
      = some "# frontend etcd_2379_front (disabled)" := by
  decide

/-- C10. The locator's block-start test uses substring containment, so a
`    default_backend etcd_back` line inside a frontend stanza satisfies
the `backend etcd_back` pattern: on this config text the located span is
`[2, 3]`, starting at the `default_backend` reference line, which is
neither a frontend nor a backend declaration line. -/
theorem locator_substring_span :
    scanBlock "etcd"
        (pySplitlines "frontend etcd_fe\n    bind *:1\n    default_backend etcd_back\n\nbackend etcd_back\n    server x\n")
        0 none
      = (some 2, some 3)
    ∧ (pySplitlines "frontend etcd_fe\n    bind *:1\n    default_backend etcd_back\n\nbackend etcd_back\n    server x\n")[2]?
      = some "    default_backend etcd_back"
    ∧ ("frontend ".data.isPrefixOf "    default_backend etcd_back".data) = false
    ∧ ("backend ".data.isPrefixOf "    default_backend etcd_back".data) = false := by
  decide

/-- C2 (code bug). Deregistering `"etcd"` against a config text holding
exactly the Example 1 generated block plus a trailing blank line does not
locate the block: the locator's service-level patterns
(`frontend etcd_front` / `backend etcd_back`) never occur in the per-port
stanza names (`etcd_2379_front` / `etcd_2379_back`), so the operation
reports not-found and the config text is unchanged rather than emptied. -/
theorem deregister_generated_block_bug :
    update_haproxy_config "etcd"
        (generate_haproxy_block "etcd" "etcd.service.consul" [⟨2379, true, true⟩] ++ "\n")
      = (false,
         generate_haproxy_block "etcd" "etcd.service.consul" [⟨2379, true, true⟩] ++ "\n")
    ∧ update_haproxy_config "etcd"
        (generate_haproxy_block "etcd" "etcd.service.consul" [⟨2379, true, true⟩] ++ "\n")
      ≠ (true, "") := by
  decide

/-- C3 (code bug). When a block start is found but no blank line follows
before end-of-file, `end_idx` keeps its `-1` sentinel, so the splice
`lines[:start_idx] + lines[end_idx + 1:]` evaluates to
`lines[:start_idx] + lines[0:]`: the prefix is duplicated and the block is
kept, instead of the span extending to end-of-file and leaving only the
lines before the marker. -/
theorem locator_no_terminator_bug :
    update_haproxy_config "foo" "global\n\nfrontend foo_front\n    bind *:80"
      = (true, "global\n\nglobal\n\nfrontend foo_front\n    bind *:80\n")
    ∧ (update_haproxy_config "foo" "global\n\nfrontend foo_front\n    bind *:80").2
      ≠ "global\n\n" := by
  decide

/-- The scan finds no block start when no line matches either pattern. -/
lemma scanBlock_no_marker (service : String) : ∀ (lines : List String) (idx : Nat),
    (∀ l ∈ lines, isMarkerLine service l = false) →
    scanBlock service lines idx none = (none, none) := by
  intro lines
  induction lines with
  | nil => intro idx _; rfl
  | cons l rest ih =>
    intro idx h
    have h1 : isMarkerLine service l = false := h l (List.mem_cons_self l rest)
    simp only [scanBlock, h1, if_false, Option.isSome_none, Bool.false_and]
    exact ih (idx + 1) fun x hx => h x (List.mem_cons_of_mem l hx)

/-- C4. On a config text containing no block-start marker for the service,
the deregister operation reports failure (`start_idx == -1`) and the text
is left completely unchanged — nothing is spliced or pushed. -/
theorem deregister_absent (service content : String)
    (h : ∀ l ∈ pySplitlines content, isMarkerLine service l = false) :
    update_haproxy_config service content = (false, content) := by
  simp [update_haproxy_config, scanBlock_no_marker service (pySplitlines content) 0 h]

/-- Witness for C4: Example 3, deregistering `"redis"` against a config
text containing only an `etcd` block. -/
theorem deregister_absent_witness :
    (∀ l ∈ pySplitlines
        (generate_haproxy_block "etcd" "etcd.service.consul" [⟨2379, true, true⟩] ++ "\n"),
      isMarkerLine "redis" l = false)
    ∧ update_haproxy_config "redis"
        (generate_haproxy_block "etcd" "etcd.service.consul" [⟨2379, true, true⟩] ++ "\n")
      = (false,
         generate_haproxy_block "etcd" "etcd.service.consul" [⟨2379, true, true⟩] ++ "\n") :=
  ⟨by decide,
   deregister_absent "redis"
     (generate_haproxy_block "etcd" "etcd.service.consul" [⟨2379, true, true⟩] ++ "\n")
     (by decide)⟩

/-- C5 (counterexample). The register deployer is fail-fast, not
best-effort: with two hosts and the scp to the first host failing, the
run stops after the first host — the second host is never processed and
no result is produced for it. -/
theorem register_fail_fast_cex :
    deploy_to_gateways
        (generate_haproxy_block "etcd" "etcd.service.consul" [⟨2379, true, true⟩])
        (fun _ => false) (fun _ => true) ["g1", "g2"]
      = [("g1", RegResult.scpFailed)]
    ∧ (deploy_to_gateways
        (generate_haproxy_block "etcd" "etcd.service.consul" [⟨2379, true, true⟩])
        (fun _ => false) (fun _ => true) ["g1", "g2"]).map Prod.fst
      ≠ ["g1", "g2"] := by
  decide

/-- C5 (amended). The deregister loop is best-effort: it always iterates
the full host list and produces one result per host, because each call is
wrapped in `try/except`. The register loop is fail-fast: after a prefix
of hosts on which both remote commands succeed, the first host whose scp
fails is the last to receive a result, and the remaining hosts are never
processed. -/
theorem deploy_best_effort_amended :
    (∀ (outcome : String → DeregResult) (hosts : List String),
        (dereg_main outcome hosts).map Prod.fst = hosts)
    ∧ (∀ (marker block : String) (scpOk sshOk : String → Bool)
          (pre : List String) (h : String) (rest : List String),
        markerOf block = some marker →
        (∀ x ∈ pre, scpOk x = true ∧ sshOk x = true) →
        scpOk h = false →
        deploy_to_gateways block scpOk sshOk (pre ++ h :: rest)
          = pre.map (fun x => (x, RegResult.success)) ++ [(h, RegResult.scpFailed)]) := by
  constructor
  · intro outcome hosts
    induction hosts with
    | nil => rfl
    | cons x hs ih => simp only [dereg_main, List.map_cons] at ih ⊢; rw [ih]
  · intro marker block scpOk sshOk pre h rest hm hall hscp
    unfold deploy_to_gateways
    rw [hm]
    induction pre with
    | nil => simp [deployLoop, hscp]
    | cons x pre' ih =>
      have hx := hall x (List.mem_cons_self x pre')
      simp only [List.cons_append, deployLoop, hx.1, hx.2, if_true, List.append_eq]
      rw [ih fun y hy => hall y (List.mem_cons_of_mem x hy)]
      simp

/-- Witness for C5 (amended) at concrete inputs. -/
theorem deploy_best_effort_amended_witness :
    ((dereg_main (fun _ => DeregResult.errorCaught) ["g1", "g2"]).map Prod.fst = ["g1", "g2"])
    ∧ (markerOf "frontend f\nrest" = some "frontend f")
    ∧ (∀ x ∈ (["g1"] : List String),
        (fun y => !(y == "g2")) x = true ∧ (fun _ => true : String → Bool) x = true)
    ∧ ((fun y => !(y == "g2")) "g2" = false)
    ∧ deploy_to_gateways "frontend f\nrest" (fun y => !(y == "g2")) (fun _ => true)
        (["g1"] ++ "g2" :: ["g3"])
      = ["g1"].map (fun x => (x, RegResult.success)) ++ [("g2", RegResult.scpFailed)] :=
  ⟨deploy_best_effort_amended.1 (fun _ => DeregResult.errorCaught) ["g1", "g2"],
   by decide, by decide, by decide,
   deploy_best_effort_amended.2 "frontend f" "frontend f\nrest"
     (fun y => !(y == "g2")) (fun _ => true) ["g1"] "g2" ["g3"]
     (by decide) (by decide) (by decide)⟩

/-- C6 (counterexample). No `InvalidSpec` validation exists: for a spec
with the out-of-range port 70000, the generator emits a normal block
containing `    bind *:70000` and the register deployer contacts every
host and succeeds on all of them; for an empty ports list, the script
does not fail before contacting a host — it crashes with an `IndexError`
on `config_block.splitlines()[0]` during the first host's iteration,
after that host already received the scp copy. -/
theorem invalid_spec_cex :
    ("    bind *:70000" ∈ blockLines "svc" "svc.example.com" [⟨70000, true, true⟩])
    ∧ deploy_to_gateways
        (generate_haproxy_block "svc" "svc.example.com" [⟨70000, true, true⟩])
        (fun _ => true) (fun _ => true) ["g1", "g2"]
      = [("g1", RegResult.success), ("g2", RegResult.success)]
    ∧ deploy_to_gateways (generate_haproxy_block "svc" "svc.example.com" [])
        (fun _ => true) (fun _ => true) ["g1", "g2"]
      = [("g1", RegResult.markerCrash)] := by
  decide

/-- C6 (amended). The code performs no ServiceSpec validation: for any
nonempty ports list — whatever the port values — the register deployment
proceeds normally through every host on which the remote commands
succeed, and for an empty ports list the first host is contacted (scp)
and the run then crashes with an `IndexError` while extracting the marker
line, which is not an `InvalidSpec` failure and not before host contact. -/
theorem no_invalid_spec_amended :
    (∀ (service domain : String) (p : PortSpec) (rest : List PortSpec)
        (scpOk sshOk : String → Bool) (hosts : List String),
      (∀ h ∈ hosts, scpOk h = true ∧ sshOk h = true) →
      deploy_to_gateways (generate_haproxy_block service domain (p :: rest))
          scpOk sshOk hosts
        = hosts.map (fun h => (h, RegResult.success)))
    ∧ (∀ (service domain : String) (scpOk sshOk : String → Bool)
          (h : String) (t : List String),
        scpOk h = true →
        deploy_to_gateways (generate_haproxy_block service domain [])
            scpOk sshOk (h :: t)
          = [(h, RegResult.markerCrash)]) := by
  constructor
  · intro service domain p rest scpOk sshOk hosts hall
    obtain ⟨m, hm⟩ := markerOf_generate_isSome service domain p rest
    unfold deploy_to_gateways
    rw [hm]
    induction hosts with
    | nil => rfl
    | cons x hs ih =>
      have hx := hall x (List.mem_cons_self x hs)
      simp only [deployLoop, hx.1, hx.2, if_true, List.map_cons]
      rw [ih fun y hy => hall y (List.mem_cons_of_mem x hy)]
  · intro service domain scpOk sshOk h t hscp
    have hnone : markerOf (generate_haproxy_block service domain []) = none := rfl
    unfold deploy_to_gateways
    rw [hnone]
    simp [deployLoop, hscp]

/-- Witness for C6 (amended) at concrete inputs. -/
theorem no_invalid_spec_amended_witness :
    (∀ h ∈ (["g1", "g2"] : List String),
        (fun _ => true : String → Bool) h = true ∧ (fun _ => true : String → Bool) h = true)
    ∧ deploy_to_gateways
        (generate_haproxy_block "svc" "svc.example.com" [⟨70000, false, false⟩])
        (fun _ => true) (fun _ => true) ["g1", "g2"]
      = (["g1", "g2"] : List String).map (fun h => (h, RegResult.success))
    ∧ ((fun _ => true : String → Bool) "g1" = true)
    ∧ deploy_to_gateways (generate_haproxy_block "svc" "svc.example.com" [])
        (fun _ => true) (fun _ => true) ("g1" :: ["g2"])
      = [("g1", RegResult.markerCrash)] :=
  ⟨by decide,
   no_invalid_spec_amended.1 "svc" "svc.example.com" ⟨70000, false, false⟩ []
     (fun _ => true) (fun _ => true) ["g1", "g2"] (by decide),
   by decide,
   no_invalid_spec_amended.2 "svc" "svc.example.com" (fun _ => true) (fun _ => true)
     "g1" ["g2"] (by decide)⟩

/-- `    balance source` never coincides with an unconditional generated
line, whatever the service, domain and port. -/
lemma not_mem_baseLines_bal (service domain pn : String) :
    "    balance source" ∉ baseLines service domain pn := by
  intro hmem
  simp only [baseLines, List.mem_cons, List.not_mem_nil, or_false] at hmem
  rcases hmem with h | h | h | h | h | h
  · exact append_ne _ _ _ 0 (by decide) (by decide) h.symm
  · exact append_ne _ _ _ 5 (by decide) (by decide) h.symm
  · exact append_ne _ _ _ 4 (by decide) (by decide) h.symm
  · exact absurd h (by decide)
  · exact append_ne _ _ _ 0 (by decide) (by decide) h.symm
  · exact append_ne _ _ _ 4 (by decide) (by decide) h.symm

/-- `    option tcp-check` never coincides with an unconditional generated
line, whatever the service, domain and port. -/
lemma not_mem_baseLines_tcp (service domain pn : String) :
    "    option tcp-check" ∉ baseLines service domain pn := by
  intro hmem
  simp only [baseLines, List.mem_cons, List.not_mem_nil, or_false] at hmem
  rcases hmem with h | h | h | h | h | h
  · exact append_ne _ _ _ 0 (by decide) (by decide) h.symm
  · exact append_ne _ _ _ 4 (by decide) (by decide) h.symm
  · exact append_ne _ _ _ 4 (by decide) (by decide) h.symm
  · exact absurd h (by decide)
  · exact append_ne _ _ _ 0 (by decide) (by decide) h.symm
  · exact append_ne _ _ _ 4 (by decide) (by decide) h.symm

/-- Membership in one port's generated lines, for a line that is neither
an unconditional line nor the blank separator: only the two conditional
directives remain. -/
lemma mem_perPortLines_iff (service domain : String) (p : PortSpec) (x : String)
    (hbase : x ∉ baseLines service domain (toString p.port))
    (hempty : x ≠ "") :
    (x ∈ perPortLines service domain p)
      ↔ ((x = "    balance source" ∧ p.load_balance = false)
          ∨ (x = "    option tcp-check" ∧ p.health_check = true)) := by
  obtain ⟨port, lb, hc⟩ := p
  cases lb <;> cases hc <;>
    simp_all [perPortLines, List.mem_append]

/-- C8. The generated lines are the per-port line groups concatenated in
the order the ports list was given, and one port's group contains
`    balance source` exactly when its `load_balance` flag is false and
`    option tcp-check` exactly when its `health_check` flag is true. -/
theorem generator_flags (service domain : String) (ports : List PortSpec) :
    blockLines service domain ports = (ports.map (perPortLines service domain)).flatten
    ∧ ∀ p : PortSpec,
        (("    balance source" ∈ perPortLines service domain p) ↔ p.load_balance = false)
        ∧ (("    option tcp-check" ∈ perPortLines service domain p) ↔ p.health_check = true) := by
  constructor
  · induction ports with
    | nil => rfl
    | cons p ps ih => simp [blockLines, ih]
  · intro p
    constructor
    · rw [mem_perPortLines_iff service domain p "    balance source"
        (not_mem_baseLines_bal service domain (toString p.port)) (by decide)]
      simp
    · rw [mem_perPortLines_iff service domain p "    option tcp-check"
        (not_mem_baseLines_tcp service domain (toString p.port)) (by decide)]
      simp
